import Mathlib

/-!
Verification of the 3D segment-intersection program (src/main.cpp).

The program consists of three components:
  * `Vector3D`: an immutable 3D point with coordinates x, y, z and exact
    componentwise equality (main.cpp lines 13-28);
  * `Segment3D`: an ordered pair of two distinct `Vector3D` endpoints whose
    constructor throws std::invalid_argument when the endpoints coincide
    (main.cpp lines 41-58);
  * `intersect`: a pure function solving the 2x2 linear system built from
    the X and Y parametric equations of the two segments, then checking all
    three axes within a tolerance (main.cpp lines 101-127).

The C++ double arithmetic is embedded two ways:
  * `intersect` below works over the rationals, the exact-arithmetic reading
    used by the claims phrased in exact arithmetic; division is total on the
    rationals with q / 0 = 0, and every claim settled against this model
    keeps the relevant denominators away from zero;
  * `intersectE` works over `DExt`, rationals extended with signed
    infinities and a NaN, reproducing the IEEE special-value behaviour of
    the division-by-zero path (the divisor produced by exact cancellation of
    doubles is +0, so q / 0 carries the sign of q).
-/

namespace LedasSegments

/-- Embeds the C++ class `Vector3D` (main.cpp lines 13-28): three double
coordinates, modelled exactly as rationals. -/
structure Vector3D where
  x : ℚ
  y : ℚ
  z : ℚ
deriving DecidableEq

/-- Embeds the defaulted `Vector3D::operator==` (main.cpp line 22): exact
componentwise comparison of the three coordinates. -/
def Vector3D.eq (a b : Vector3D) : Bool :=
  a.x == b.x && a.y == b.y && a.z == b.z

/-- Embeds the C++ class `Segment3D` (main.cpp lines 41-58): an ordered pair
of endpoints. The constructor check is `mkSegment3D`; `endp` stands for the
C++ field `end`, a reserved word in Lean. -/
structure Segment3D where
  start : Vector3D
  endp : Vector3D
deriving DecidableEq

/-- The message of the std::invalid_argument thrown by the `Segment3D`
constructor (main.cpp line 48). -/
def degenerateMsg : String := "Start and end points are the same"

/-- The message of the std::invalid_argument thrown by `intersect`
(main.cpp line 126). -/
def noIntersectionMsg : String := "Segments do not intersect"

/-- Embeds the `Segment3D` constructor (main.cpp lines 44-50): it throws
std::invalid_argument when `start == end`, otherwise stores the endpoints. -/
def mkSegment3D (start endp : Vector3D) : Except String Segment3D :=
  if Vector3D.eq start endp then Except.error degenerateMsg
  else Except.ok ⟨start, endp⟩

/-- A constructed segment: its endpoints differ under `Vector3D.eq`, the
invariant the constructor enforces. -/
def Segment3D.Valid (seg : Segment3D) : Prop :=
  Vector3D.eq seg.start seg.endp = false

instance (seg : Segment3D) : Decidable seg.Valid := by
  unfold Segment3D.Valid; infer_instance

/-- Coefficient a of a segment (main.cpp lines 103, 110): X direction. -/
def dirX (seg : Segment3D) : ℚ := seg.endp.x - seg.start.x

/-- Coefficient b of a segment (main.cpp lines 104, 111): X offset. -/
def offX (seg : Segment3D) : ℚ := seg.start.x

/-- Coefficient c of a segment (main.cpp lines 105, 112): Y direction. -/
def dirY (seg : Segment3D) : ℚ := seg.endp.y - seg.start.y

/-- Coefficient d of a segment (main.cpp lines 106, 113): Y offset. -/
def offY (seg : Segment3D) : ℚ := seg.start.y

/-- Coefficient e of a segment (main.cpp lines 107, 114): Z direction. -/
def dirZ (seg : Segment3D) : ℚ := seg.endp.z - seg.start.z

/-- Coefficient f of a segment (main.cpp lines 108, 115): Z offset. -/
def offZ (seg : Segment3D) : ℚ := seg.start.z

/-- The denominator `c1 * a2 - c2 * a1` of the solve for s
(main.cpp line 117). -/
def denom (s1 s2 : Segment3D) : ℚ :=
  dirY s1 * dirX s2 - dirY s2 * dirX s1

/-- The solved parameter
`s = (d2 * a1 - c1 * b2 + c1 * b1 - d1 * a1) / (c1 * a2 - c2 * a1)`
(main.cpp line 117). -/
def sVal (s1 s2 : Segment3D) : ℚ :=
  (offY s2 * dirX s1 - dirY s1 * offX s2 + dirY s1 * offX s1 - offY s1 * dirX s1) /
    denom s1 s2

/-- The solved parameter `t = (a2 * s + b2 - b1) / a1` (main.cpp line 118). -/
def tVal (s1 s2 : Segment3D) : ℚ :=
  (dirX s2 * sVal s1 s2 + offX s2 - offX s1) / dirX s1

/-- The candidate point `(a2 * s + b2, c2 * s + d2, e2 * s + f2)` returned on
success (main.cpp line 124): segment2 evaluated at parameter s. -/
def candidate (s1 s2 : Segment3D) : Vector3D :=
  ⟨dirX s2 * sVal s1 s2 + offX s2,
   dirY s2 * sVal s1 s2 + offY s2,
   dirZ s2 * sVal s1 s2 + offZ s2⟩

/-- One tolerance comparison `lhs - precision <= rhs && rhs <= lhs + precision`
as written on each axis line of main.cpp lines 120-122. -/
def axisOK (lhs rhs precision : ℚ) : Prop :=
  lhs - precision ≤ rhs ∧ rhs ≤ lhs + precision

instance (l r p : ℚ) : Decidable (axisOK l r p) := by
  unfold axisOK; infer_instance

/-- The X-axis tolerance check of main.cpp line 120:
`a1 * t + b1 - precision <= a2 * s + b2 && a2 * s + b2 <= a1 * t + b1 + precision`. -/
def checkX (s1 s2 : Segment3D) (precision : ℚ) : Prop :=
  axisOK (dirX s1 * tVal s1 s2 + offX s1) (dirX s2 * sVal s1 s2 + offX s2) precision

instance (s1 s2 : Segment3D) (p : ℚ) : Decidable (checkX s1 s2 p) := by
  unfold checkX; infer_instance

/-- The Y-axis tolerance check of main.cpp line 121. -/
def checkY (s1 s2 : Segment3D) (precision : ℚ) : Prop :=
  axisOK (dirY s1 * tVal s1 s2 + offY s1) (dirY s2 * sVal s1 s2 + offY s2) precision

instance (s1 s2 : Segment3D) (p : ℚ) : Decidable (checkY s1 s2 p) := by
  unfold checkY; infer_instance

/-- The Z-axis tolerance check of main.cpp line 122. -/
def checkZ (s1 s2 : Segment3D) (precision : ℚ) : Prop :=
  axisOK (dirZ s1 * tVal s1 s2 + offZ s1) (dirZ s2 * sVal s1 s2 + offZ s2) precision

instance (s1 s2 : Segment3D) (p : ℚ) : Decidable (checkZ s1 s2 p) := by
  unfold checkZ; infer_instance

/-- The full condition of the if statement, main.cpp lines 120-122: the
conjunction of the three axis checks. -/
def checksHold (s1 s2 : Segment3D) (precision : ℚ) : Prop :=
  checkX s1 s2 precision ∧ checkY s1 s2 precision ∧ checkZ s1 s2 precision

instance (s1 s2 : Segment3D) (p : ℚ) : Decidable (checksHold s1 s2 p) := by
  unfold checksHold; infer_instance

/-- The default value 1e-6 of the `precision` parameter (main.cpp line 101). -/
def defaultPrecision : ℚ := 1 / 1000000

/-- Embeds the free function `intersect` (main.cpp lines 101-127) in exact
rational arithmetic: solve for s and t from the X and Y equations, then
return the candidate point when the three axis checks pass and throw
std::invalid_argument otherwise. -/
def intersect (segment1 segment2 : Segment3D) (precision : ℚ) :
    Except String Vector3D :=
  if checksHold segment1 segment2 precision then
    Except.ok (candidate segment1 segment2)
  else
    Except.error noIntersectionMsg

/-!
The extended-value model: the same function over rationals extended with
signed infinities and a NaN, reproducing the IEEE double special values
that the division by a zero denominator produces in the C++ code. Finite
arithmetic stays exact; only the special-value propagation of the source
is modelled. The zero produced by the exact cancellation `c1 * a2 - c2 * a1`
of doubles is +0 under round-to-nearest, so division of a nonzero finite
value by it yields the infinity with the sign of the dividend.
-/

/-- A double restricted to the values the program can produce: an exact
finite rational, one of the two infinities, or NaN. -/
inductive DExt where
  | fin (q : ℚ)
  | pinf
  | ninf
  | nan
deriving DecidableEq

/-- IEEE division of a finite value by a finite value; the zero divisor the
program can produce is +0, so a nonzero dividend gives the infinity with
its sign and a zero dividend gives NaN. -/
def divQ (x y : ℚ) : DExt :=
  if y = 0 then
    if x = 0 then DExt.nan else if 0 < x then DExt.pinf else DExt.ninf
  else DExt.fin (x / y)

/-- Adding a finite value on the right: infinities and NaN absorb it. -/
def DExt.addF : DExt → ℚ → DExt
  | fin q, c => fin (q + c)
  | pinf, _ => pinf
  | ninf, _ => ninf
  | nan, _ => nan

/-- Subtracting a finite value on the right: infinities and NaN absorb it. -/
def DExt.subF : DExt → ℚ → DExt
  | fin q, c => fin (q - c)
  | pinf, _ => pinf
  | ninf, _ => ninf
  | nan, _ => nan

/-- Multiplying by a finite value on the left: `0 * infinity` is NaN, a
nonzero factor keeps or flips the infinity, NaN propagates. -/
def DExt.mulF (c : ℚ) : DExt → DExt
  | fin q => fin (c * q)
  | pinf => if 0 < c then pinf else if c < 0 then ninf else nan
  | ninf => if 0 < c then ninf else if c < 0 then pinf else nan
  | nan => nan

/-- Dividing by a finite value on the right; an infinity divided by the
(positive) zero the program can produce stays the same infinity. -/
def DExt.divF : DExt → ℚ → DExt
  | fin q, c => divQ q c
  | pinf, c => if c < 0 then ninf else pinf
  | ninf, c => if c < 0 then pinf else ninf
  | nan, _ => nan

/-- The IEEE comparison `<=` on extended values: any comparison against NaN
is false, the infinities compare as extremes, finite values exactly. -/
def DExt.le : DExt → DExt → Bool
  | nan, _ => false
  | _, nan => false
  | ninf, _ => true
  | _, pinf => true
  | pinf, _ => false
  | _, ninf => false
  | fin a, fin b => decide (a ≤ b)

/-- A point whose coordinates are extended values, as returned by the
program when special values flow into main.cpp line 124. -/
structure Vector3E where
  x : DExt
  y : DExt
  z : DExt
deriving DecidableEq

/-- The solved parameter s of main.cpp line 117 in the extended model: the
numerator and denominator are exact finite rationals, the division may
produce an infinity or NaN. -/
def sE (s1 s2 : Segment3D) : DExt :=
  divQ (offY s2 * dirX s1 - dirY s1 * offX s2 + dirY s1 * offX s1 - offY s1 * dirX s1)
    (denom s1 s2)

/-- The solved parameter `t = (a2 * s + b2 - b1) / a1` of main.cpp line 118
in the extended model. -/
def tE (s1 s2 : Segment3D) : DExt :=
  ((((sE s1 s2).mulF (dirX s2)).addF (offX s2)).subF (offX s1)).divF (dirX s1)

/-- The value `a1 * t + b1` of segment1 on the X axis (main.cpp line 120). -/
def xVal1 (s1 s2 : Segment3D) : DExt := ((tE s1 s2).mulF (dirX s1)).addF (offX s1)

/-- The value `a2 * s + b2` of segment2 on the X axis (main.cpp line 120). -/
def xVal2 (s1 s2 : Segment3D) : DExt := ((sE s1 s2).mulF (dirX s2)).addF (offX s2)

/-- The value `c1 * t + d1` of segment1 on the Y axis (main.cpp line 121). -/
def yVal1 (s1 s2 : Segment3D) : DExt := ((tE s1 s2).mulF (dirY s1)).addF (offY s1)

/-- The value `c2 * s + d2` of segment2 on the Y axis (main.cpp line 121). -/
def yVal2 (s1 s2 : Segment3D) : DExt := ((sE s1 s2).mulF (dirY s2)).addF (offY s2)

/-- The value `e1 * t + f1` of segment1 on the Z axis (main.cpp line 122). -/
def zVal1 (s1 s2 : Segment3D) : DExt := ((tE s1 s2).mulF (dirZ s1)).addF (offZ s1)

/-- The value `e2 * s + f2` of segment2 on the Z axis (main.cpp line 122). -/
def zVal2 (s1 s2 : Segment3D) : DExt := ((sE s1 s2).mulF (dirZ s2)).addF (offZ s2)

/-- One tolerance comparison of main.cpp lines 120-122 on extended values. -/
def axisOKE (lhs rhs : DExt) (precision : ℚ) : Bool :=
  (lhs.subF precision).le rhs && rhs.le (lhs.addF precision)

/-- The full if condition of main.cpp lines 120-122 on extended values. -/
def checksE (s1 s2 : Segment3D) (precision : ℚ) : Bool :=
  axisOKE (xVal1 s1 s2) (xVal2 s1 s2) precision &&
  axisOKE (yVal1 s1 s2) (yVal2 s1 s2) precision &&
  axisOKE (zVal1 s1 s2) (zVal2 s1 s2) precision

/-- Embeds `intersect` (main.cpp lines 101-127) in the extended model, with
the IEEE special values the division by a zero denominator produces. -/
def intersectE (segment1 segment2 : Segment3D) (precision : ℚ) :
    Except String Vector3E :=
  if checksE segment1 segment2 precision then
    Except.ok ⟨xVal2 segment1 segment2, yVal2 segment1 segment2, zVal2 segment1 segment2⟩
  else
    Except.error noIntersectionMsg

/-!
Concrete segments used by the witnesses and counterexamples below. All
their coordinates are small integers or small binary-exact steps, so the
rational model evaluates them exactly as the double model of the C++ code
does wherever a claim relies on them.
-/

/-- First segment of the demonstration in main (main.cpp lines 131-132,
135): from (3, 0, 1e-7) to (1, 0, 0). -/
def demoSeg1 : Segment3D := ⟨⟨3, 0, 1 / 10000000⟩, ⟨1, 0, 0⟩⟩

/-- Second segment of the demonstration in main (main.cpp lines 133-134,
136): from (0, 1, 0) to (0, 4, 0). -/
def demoSeg2 : Segment3D := ⟨⟨0, 1, 0⟩, ⟨0, 4, 0⟩⟩

/-- The segment from (0, 0, 0) to (2, 2, 0) of the crossing-pair test. -/
def crossSeg1 : Segment3D := ⟨⟨0, 0, 0⟩, ⟨2, 2, 0⟩⟩

/-- The segment from (0, 2, 0) to (2, 0, 0) of the crossing-pair test. -/
def crossSeg2 : Segment3D := ⟨⟨0, 2, 0⟩, ⟨2, 0, 0⟩⟩

/-- A segment from (0, 0, 0) to (1, 1, 0): its supporting line meets the
supporting line of `outsideSeg2` at (3/2, 3/2, 0), outside both segments. -/
def outsideSeg1 : Segment3D := ⟨⟨0, 0, 0⟩, ⟨1, 1, 0⟩⟩

/-- A segment from (3, 0, 0) to (4, -1, 0), disjoint from `outsideSeg1`. -/
def outsideSeg2 : Segment3D := ⟨⟨3, 0, 0⟩, ⟨4, -1, 0⟩⟩

/-- A segment from (0, 0, 0) to (0, 1, 0): both endpoints share the same X
coordinate, so its coefficient a is 0. -/
def verticalSeg1 : Segment3D := ⟨⟨0, 0, 0⟩, ⟨0, 1, 0⟩⟩

/-- A segment from (1, 0, 0) to (2, 1, 0), making the 2x2 denominator
against `verticalSeg1` nonzero. -/
def slantSeg2 : Segment3D := ⟨⟨1, 0, 0⟩, ⟨2, 1, 0⟩⟩

/-- A segment from (0, 0, 0) to (1, 1, 1). -/
def parallelSeg1 : Segment3D := ⟨⟨0, 0, 0⟩, ⟨1, 1, 1⟩⟩

/-- A segment from (1, 0, 0) to (2, 1, 1), parallel to `parallelSeg1` and
not meeting it. -/
def parallelSeg2 : Segment3D := ⟨⟨1, 0, 0⟩, ⟨2, 1, 1⟩⟩

/-- The parametric point of a segment at parameter u, per axis
`direction * u + offset` (main.cpp step 1 and the doc comment at lines
72-99). -/
def pointOn (seg : Segment3D) (u : ℚ) : Vector3D :=
  ⟨dirX seg * u + offX seg, dirY seg * u + offY seg, dirZ seg * u + offZ seg⟩

/-- The set of points of a segment: its parametric line restricted to
parameters in [0, 1]. -/
def segPoints (seg : Segment3D) : Set Vector3D :=
  {p | ∃ u : ℚ, 0 ≤ u ∧ u ≤ 1 ∧ p = pointOn seg u}

end LedasSegments

namespace LedasSegments

/-!
Helper lemmas shared by the claim theorems below.
-/

/-- Nothing compares less-or-equal against NaN. -/
lemma DExt.le_nan_right (a : DExt) : DExt.le a DExt.nan = false := by
  cases a <;> rfl

/-- NaN compares less-or-equal against nothing. -/
lemma DExt.le_nan_left (b : DExt) : DExt.le DExt.nan b = false := by
  cases b <;> rfl

/-- NaN absorbs multiplication by a finite value. -/
lemma mulF_nan (c : ℚ) : DExt.mulF c DExt.nan = DExt.nan := rfl

/-- Multiplying the positive infinity by a finite value, by sign. -/
lemma mulF_pinf (c : ℚ) :
    DExt.mulF c DExt.pinf =
      if 0 < c then DExt.pinf else if c < 0 then DExt.ninf else DExt.nan := rfl

/-- Multiplying the negative infinity by a finite value, by sign. -/
lemma mulF_ninf (c : ℚ) :
    DExt.mulF c DExt.ninf =
      if 0 < c then DExt.ninf else if c < 0 then DExt.pinf else DExt.nan := rfl

/-- When the if condition of the extended model holds, the X value of
segment2 cannot be NaN: the first comparison would have been false. -/
lemma xVal2_not_nan_of_checks {s1 s2 : Segment3D} {p : ℚ}
    (hc : checksE s1 s2 p = true) : xVal2 s1 s2 ≠ DExt.nan := by
  intro hn
  simp only [checksE, Bool.and_eq_true] at hc
  obtain ⟨⟨hX, _⟩, _⟩ := hc
  rw [axisOKE, hn, DExt.le_nan_right] at hX
  simp at hX

/-- The solved parameter s of the demonstration pair in main is -1/3. -/
lemma demo_sVal : sVal demoSeg1 demoSeg2 = -1/3 := by
  norm_num [sVal, denom, dirX, dirY, offX, offY, demoSeg1, demoSeg2]

/-- The solved parameter t of the demonstration pair in main is 3/2. -/
lemma demo_tVal : tVal demoSeg1 demoSeg2 = 3/2 := by
  rw [tVal, demo_sVal]
  norm_num [dirX, offX, demoSeg1, demoSeg2]

/-- At the default precision the demonstration pair of main passes all
three axis checks and intersect returns the point (0, 0, 0): the Z-axis
mismatch is 1/20000000, well below 1/1000000. -/
lemma demo_intersect_ok :
    intersect demoSeg1 demoSeg2 defaultPrecision = Except.ok ⟨0, 0, 0⟩ := by
  have hc : checksHold demoSeg1 demoSeg2 defaultPrecision := by
    simp only [checksHold, checkX, checkY, checkZ, axisOK, demo_sVal, demo_tVal]
    norm_num [dirX, dirY, dirZ, offX, offY, offZ, demoSeg1, demoSeg2, defaultPrecision]
  rw [intersect, if_pos hc, candidate, demo_sVal]
  norm_num [dirX, dirY, dirZ, offX, offY, offZ, demoSeg1, demoSeg2]

/-!
The claim theorems.
-/

/-- C1: for valid segments with a1 different from 0 and a nonzero 2x2
denominator, the solved parameters satisfy both the X and the Y equation
exactly in rational arithmetic; hence for any precision at least 0 the X
and Y tolerance checks pass, and intersect succeeds exactly when the Z
check passes, so only the Z-axis check can fail. -/
theorem c1_xy_exact (s1 s2 : Segment3D) (p : ℚ)
    (_h1 : s1.Valid) (_h2 : s2.Valid)
    (ha : dirX s1 ≠ 0) (hd : denom s1 s2 ≠ 0) (hp : 0 ≤ p) :
    dirX s1 * tVal s1 s2 + offX s1 = dirX s2 * sVal s1 s2 + offX s2 ∧
    dirY s1 * tVal s1 s2 + offY s1 = dirY s2 * sVal s1 s2 + offY s2 ∧
    checkX s1 s2 p ∧ checkY s1 s2 p ∧
    (intersect s1 s2 p = Except.ok (candidate s1 s2) ↔ checkZ s1 s2 p) := by
  have hd' : dirY s1 * dirX s2 - dirY s2 * dirX s1 ≠ 0 := by
    rw [denom] at hd; exact hd
  have hx : dirX s1 * tVal s1 s2 + offX s1 = dirX s2 * sVal s1 s2 + offX s2 := by
    rw [tVal]; field_simp
  have hy : dirY s1 * tVal s1 s2 + offY s1 = dirY s2 * sVal s1 s2 + offY s2 := by
    rw [tVal, sVal, denom]; field_simp; ring
  have hcx : checkX s1 s2 p := by
    rw [checkX, axisOK]; constructor <;> [rw [hx]; rw [hx]] <;> linarith
  have hcy : checkY s1 s2 p := by
    rw [checkY, axisOK]; constructor <;> [rw [hy]; rw [hy]] <;> linarith
  refine ⟨hx, hy, hcx, hcy, ?_⟩
  constructor
  · intro hok
    by_contra hz
    have hnc : ¬ checksHold s1 s2 p := fun h => hz h.2.2
    rw [intersect, if_neg hnc] at hok
    exact Except.noConfusion hok
  · intro hz
    rw [intersect, if_pos ⟨hcx, hcy, hz⟩]

/-- Witness for C1 at the crossing pair, whose a1 is 2 and whose
denominator is 8, at the default precision. -/
theorem c1_xy_exact_witness :
    checkX crossSeg1 crossSeg2 defaultPrecision ∧
    checkY crossSeg1 crossSeg2 defaultPrecision :=
  have h := c1_xy_exact crossSeg1 crossSeg2 defaultPrecision
    (by norm_num [Segment3D.Valid, Vector3D.eq, crossSeg1])
    (by norm_num [Segment3D.Valid, Vector3D.eq, crossSeg2])
    (by norm_num [dirX, crossSeg1])
    (by norm_num [denom, dirX, dirY, crossSeg1, crossSeg2])
    (by norm_num [defaultPrecision])
  ⟨h.2.2.1, h.2.2.2.1⟩

/-- C2, counterexample: at the default precision 1e-6 the demonstration
pair of main does NOT raise the no-intersection error; intersect returns
the point (0, 0, 0). -/
theorem c2_demo_not_error :
    intersect demoSeg1 demoSeg2 defaultPrecision = Except.ok ⟨0, 0, 0⟩ ∧
    intersect demoSeg1 demoSeg2 defaultPrecision ≠ Except.error noIntersectionMsg :=
  ⟨demo_intersect_ok, by rw [demo_intersect_ok]; intro h; exact Except.noConfusion h⟩

/-- C2, as amended: on the demonstration pair of main the solve gives
s = -1/3 and t = 3/2, the Z-axis mismatch is exactly -1/20000000, so at
the default precision 1e-6 intersect returns (0, 0, 0); the
no-intersection error appears only at a precision below 1/20000000, for
example 1e-8. -/
theorem c2_demo_outcome :
    intersect demoSeg1 demoSeg2 defaultPrecision = Except.ok ⟨0, 0, 0⟩ ∧
    sVal demoSeg1 demoSeg2 = -1/3 ∧ tVal demoSeg1 demoSeg2 = 3/2 ∧
    dirZ demoSeg1 * tVal demoSeg1 demoSeg2 + offZ demoSeg1 -
      (dirZ demoSeg2 * sVal demoSeg1 demoSeg2 + offZ demoSeg2) = -(1/20000000) ∧
    intersect demoSeg1 demoSeg2 (1/100000000) = Except.error noIntersectionMsg := by
  refine ⟨demo_intersect_ok, demo_sVal, demo_tVal, ?_, ?_⟩
  · rw [demo_sVal, demo_tVal]
    norm_num [dirZ, offZ, demoSeg1, demoSeg2]
  · have hnc : ¬ checksHold demoSeg1 demoSeg2 (1/100000000) := by
      rintro ⟨-, -, hz⟩
      rw [checkZ, axisOK, demo_sVal, demo_tVal] at hz
      norm_num [dirZ, offZ, demoSeg1, demoSeg2] at hz
    rw [intersect, if_neg hnc]

/-- C3: for every pair of valid segments and every precision, intersect
either returns the candidate point (segment2 evaluated at the solved
parameter s) with all three axis checks passing, or fails with exactly the
single no-intersection error with some axis check failing; no other
outcome occurs. -/
theorem c3_ok_or_single_error (s1 s2 : Segment3D) (p : ℚ)
    (_h1 : s1.Valid) (_h2 : s2.Valid) :
    (checksHold s1 s2 p ∧ intersect s1 s2 p = Except.ok (candidate s1 s2)) ∨
    (¬ checksHold s1 s2 p ∧ intersect s1 s2 p = Except.error noIntersectionMsg) := by
  by_cases h : checksHold s1 s2 p
  · exact Or.inl ⟨h, by rw [intersect, if_pos h]⟩
  · exact Or.inr ⟨h, by rw [intersect, if_neg h]⟩

/-- Witness for C3 at the crossing pair and the default precision. -/
theorem c3_ok_or_single_error_witness :
    (checksHold crossSeg1 crossSeg2 defaultPrecision ∧
     intersect crossSeg1 crossSeg2 defaultPrecision =
       Except.ok (candidate crossSeg1 crossSeg2)) ∨
    (¬ checksHold crossSeg1 crossSeg2 defaultPrecision ∧
     intersect crossSeg1 crossSeg2 defaultPrecision = Except.error noIntersectionMsg) :=
  c3_ok_or_single_error crossSeg1 crossSeg2 defaultPrecision
    (by norm_num [Segment3D.Valid, Vector3D.eq, crossSeg1])
    (by norm_num [Segment3D.Valid, Vector3D.eq, crossSeg2])

/-- C4: for every point p, with no restriction on its coordinates,
constructing a segment from p to p fails with the degenerate-segment
error. -/
theorem c4_degenerate_construction_fails (p : Vector3D) :
    mkSegment3D p p = Except.error degenerateMsg := by
  have h : Vector3D.eq p p = true := by simp [Vector3D.eq]
  rw [mkSegment3D, if_pos h]

/-- C5: equality on points is reflexive and symmetric, and holds exactly
when all three coordinates are exactly equal, with no tolerance; in
particular (1,2,3) equals (1,2,3) and differs from (1,2,3.0000001). -/
theorem c5_equality_exact :
    (∀ a : Vector3D, Vector3D.eq a a = true) ∧
    (∀ a b : Vector3D, Vector3D.eq a b = Vector3D.eq b a) ∧
    (∀ a b : Vector3D, Vector3D.eq a b = true ↔ a.x = b.x ∧ a.y = b.y ∧ a.z = b.z) ∧
    Vector3D.eq ⟨1, 2, 3⟩ ⟨1, 2, 3⟩ = true ∧
    Vector3D.eq ⟨1, 2, 3⟩ ⟨1, 2, 30000001 / 10000000⟩ = false := by
  refine ⟨?_, ?_, ?_, ?_, ?_⟩
  · intro a; simp [Vector3D.eq]
  · intro a b
    rw [Bool.eq_iff_iff]
    simp only [Vector3D.eq, Bool.and_eq_true, beq_iff_eq, and_assoc]
    constructor <;> rintro ⟨h1, h2, h3⟩ <;> exact ⟨h1.symm, h2.symm, h3.symm⟩
  · intro a b; simp [Vector3D.eq, and_assoc]
  · norm_num [Vector3D.eq]
  · norm_num [Vector3D.eq]

/-- C6, as amended: for valid segments whose XY directions are collinear
(the denominator is zero), intersect never returns a finite point: in the
extended IEEE model it either raises the no-intersection error or returns
a point whose X coordinate is one of the two infinities. -/
theorem c6_parallel_no_finite_point (s1 s2 : Segment3D) (p : ℚ)
    (_h1 : s1.Valid) (_h2 : s2.Valid) (hd : denom s1 s2 = 0) :
    intersectE s1 s2 p = Except.error noIntersectionMsg ∨
    ∃ pt : Vector3E, intersectE s1 s2 p = Except.ok pt ∧
      (pt.x = DExt.pinf ∨ pt.x = DExt.ninf) := by
  by_cases hc : checksE s1 s2 p = true
  · right
    refine ⟨⟨xVal2 s1 s2, yVal2 s1 s2, zVal2 s1 s2⟩, by rw [intersectE, if_pos hc], ?_⟩
    have hnn : xVal2 s1 s2 ≠ DExt.nan := xVal2_not_nan_of_checks hc
    have hs : sE s1 s2 = DExt.nan ∨ sE s1 s2 = DExt.pinf ∨ sE s1 s2 = DExt.ninf := by
      rw [sE, hd, divQ, if_pos rfl]
      split_ifs <;> simp
    show xVal2 s1 s2 = DExt.pinf ∨ xVal2 s1 s2 = DExt.ninf
    rcases hs with h | h | h
    · exact absurd (by rw [xVal2, h, mulF_nan]; rfl) hnn
    · rcases lt_trichotomy 0 (dirX s2) with hpos | hzero | hneg
      · left; rw [xVal2, h, mulF_pinf, if_pos hpos]; rfl
      · exact absurd (by rw [xVal2, h, mulF_pinf,
          if_neg (by rw [← hzero]; exact lt_irrefl 0),
          if_neg (by rw [← hzero]; exact lt_irrefl 0)]; rfl) hnn
      · right; rw [xVal2, h, mulF_pinf, if_neg (by exact not_lt.mpr hneg.le),
          if_pos hneg]; rfl
    · rcases lt_trichotomy 0 (dirX s2) with hpos | hzero | hneg
      · right; rw [xVal2, h, mulF_ninf, if_pos hpos]; rfl
      · exact absurd (by rw [xVal2, h, mulF_ninf,
          if_neg (by rw [← hzero]; exact lt_irrefl 0),
          if_neg (by rw [← hzero]; exact lt_irrefl 0)]; rfl) hnn
      · left; rw [xVal2, h, mulF_ninf, if_neg (by exact not_lt.mpr hneg.le),
          if_pos hneg]; rfl
  · left
    rw [intersectE, if_neg hc]

/-- The solved parameter s of the parallel pair: -1 divided by the zero
denominator, the negative infinity. -/
lemma parallel_sE : sE parallelSeg1 parallelSeg2 = DExt.ninf := by
  rw [sE, denom]
  norm_num [dirX, dirY, offX, offY, parallelSeg1, parallelSeg2, divQ]

/-- The solved parameter t of the parallel pair is also the negative
infinity. -/
lemma parallel_tE : tE parallelSeg1 parallelSeg2 = DExt.ninf := by
  rw [tE, parallel_sE]
  norm_num [DExt.mulF, DExt.addF, DExt.subF, DExt.divF, dirX, offX,
    parallelSeg1, parallelSeg2]

/-- The X value of segment2 in the parallel pair. -/
lemma parallel_xVal2 : xVal2 parallelSeg1 parallelSeg2 = DExt.ninf := by
  rw [xVal2, parallel_sE]
  norm_num [DExt.mulF, DExt.addF, dirX, offX, parallelSeg1, parallelSeg2]

/-- The Y value of segment2 in the parallel pair. -/
lemma parallel_yVal2 : yVal2 parallelSeg1 parallelSeg2 = DExt.ninf := by
  rw [yVal2, parallel_sE]
  norm_num [DExt.mulF, DExt.addF, dirY, offY, parallelSeg1, parallelSeg2]

/-- The Z value of segment2 in the parallel pair. -/
lemma parallel_zVal2 : zVal2 parallelSeg1 parallelSeg2 = DExt.ninf := by
  rw [zVal2, parallel_sE]
  norm_num [DExt.mulF, DExt.addF, dirZ, offZ, parallelSeg1, parallelSeg2]

/-- The X value of segment1 in the parallel pair. -/
lemma parallel_xVal1 : xVal1 parallelSeg1 parallelSeg2 = DExt.ninf := by
  rw [xVal1, parallel_tE]
  norm_num [DExt.mulF, DExt.addF, dirX, offX, parallelSeg1, parallelSeg2]

/-- The Y value of segment1 in the parallel pair. -/
lemma parallel_yVal1 : yVal1 parallelSeg1 parallelSeg2 = DExt.ninf := by
  rw [yVal1, parallel_tE]
  norm_num [DExt.mulF, DExt.addF, dirY, offY, parallelSeg1, parallelSeg2]

/-- The Z value of segment1 in the parallel pair. -/
lemma parallel_zVal1 : zVal1 parallelSeg1 parallelSeg2 = DExt.ninf := by
  rw [zVal1, parallel_tE]
  norm_num [DExt.mulF, DExt.addF, dirZ, offZ, parallelSeg1, parallelSeg2]

/-- On the parallel pair every tolerance comparison holds: each compares
the negative infinity with itself, and the infinities are absorbing for
the finite precision offsets. -/
lemma parallel_checksE : checksE parallelSeg1 parallelSeg2 defaultPrecision = true := by
  rw [checksE, parallel_xVal1, parallel_xVal2, parallel_yVal1, parallel_yVal2,
    parallel_zVal1, parallel_zVal2]
  rfl

/-- The same six comparisons also hold at the negative precision -1: every
one compares the negative infinity with itself, and the infinities absorb
the finite precision offsets whatever their sign. -/
lemma parallel_checksE_neg : checksE parallelSeg1 parallelSeg2 (-1) = true := by
  rw [checksE, parallel_xVal1, parallel_xVal2, parallel_yVal1, parallel_yVal2,
    parallel_zVal1, parallel_zVal2]
  rfl

/-- C6, counterexample: the parallel pair (0,0,0)-(1,1,1) and
(1,0,0)-(2,1,1) has a zero denominator, yet intersect does not raise:
all six tolerance comparisons hold on equal infinities and the returned
point is (-inf, -inf, -inf). Every quantity involved is exactly
representable in doubles, so the C++ program behaves identically. -/
theorem c6_parallel_returns_infinite_point :
    denom parallelSeg1 parallelSeg2 = 0 ∧
    intersectE parallelSeg1 parallelSeg2 defaultPrecision =
      Except.ok ⟨DExt.ninf, DExt.ninf, DExt.ninf⟩ := by
  constructor
  · norm_num [denom, dirX, dirY, parallelSeg1, parallelSeg2]
  · rw [intersectE, if_pos parallel_checksE, parallel_xVal2, parallel_yVal2,
      parallel_zVal2]

/-- Witness for C6 at the parallel pair and the default precision. -/
theorem c6_parallel_no_finite_point_witness :
    denom parallelSeg1 parallelSeg2 = 0 ∧
    (intersectE parallelSeg1 parallelSeg2 defaultPrecision = Except.error noIntersectionMsg ∨
     ∃ pt : Vector3E, intersectE parallelSeg1 parallelSeg2 defaultPrecision = Except.ok pt ∧
       (pt.x = DExt.pinf ∨ pt.x = DExt.ninf)) :=
  ⟨by norm_num [denom, dirX, dirY, parallelSeg1, parallelSeg2],
   c6_parallel_no_finite_point parallelSeg1 parallelSeg2 defaultPrecision
     (by norm_num [Segment3D.Valid, Vector3D.eq, parallelSeg1])
     (by norm_num [Segment3D.Valid, Vector3D.eq, parallelSeg2])
     (by norm_num [denom, dirX, dirY, parallelSeg1, parallelSeg2])⟩

/-- The solved parameter s of the out-of-range pair is -3/2, below 0. -/
lemma outside_sVal : sVal outsideSeg1 outsideSeg2 = -(3/2) := by
  norm_num [sVal, denom, dirX, dirY, offX, offY, outsideSeg1, outsideSeg2]

/-- The solved parameter t of the out-of-range pair is 3/2, above 1. -/
lemma outside_tVal : tVal outsideSeg1 outsideSeg2 = 3/2 := by
  rw [tVal, outside_sVal]
  norm_num [dirX, offX, outsideSeg1, outsideSeg2]

/-- C7: the solved parameters are never checked against [0, 1]: on the
disjoint pair (0,0,0)-(1,1,0) and (3,0,0)-(4,-1,0), whose supporting
lines cross at (3/2, 3/2, 0), intersect returns that point although
t = 3/2 lies above 1, s = -3/2 lies below 0, and the two segments have no
common point. -/
theorem c7_out_of_range_parameters_accepted :
    intersect outsideSeg1 outsideSeg2 defaultPrecision = Except.ok ⟨3/2, 3/2, 0⟩ ∧
    tVal outsideSeg1 outsideSeg2 = 3/2 ∧ sVal outsideSeg1 outsideSeg2 = -(3/2) ∧
    ¬ (tVal outsideSeg1 outsideSeg2 ≤ 1) ∧ ¬ (0 ≤ sVal outsideSeg1 outsideSeg2) ∧
    Disjoint (segPoints outsideSeg1) (segPoints outsideSeg2) := by
  refine ⟨?_, outside_tVal, outside_sVal, ?_, ?_, ?_⟩
  · have hc : checksHold outsideSeg1 outsideSeg2 defaultPrecision := by
      simp only [checksHold, checkX, checkY, checkZ, axisOK, outside_sVal, outside_tVal]
      norm_num [dirX, dirY, dirZ, offX, offY, offZ, outsideSeg1, outsideSeg2,
        defaultPrecision]
    rw [intersect, if_pos hc, candidate, outside_sVal]
    norm_num [dirX, dirY, dirZ, offX, offY, offZ, outsideSeg1, outsideSeg2]
  · rw [outside_tVal]; norm_num
  · rw [outside_sVal]; norm_num
  · rw [Set.disjoint_left]
    rintro q ⟨u, hu0, hu1, rfl⟩ ⟨v, hv0, hv1, he⟩
    have hx := congrArg Vector3D.x he
    simp only [pointOn] at hx
    norm_num [dirX, offX, outsideSeg1, outsideSeg2] at hx
    linarith

/-- C8: on the crossing pair (0,0,0)-(2,2,0) and (0,2,0)-(2,0,0), at the
default precision, intersect succeeds and returns exactly (1, 1, 0), with
solved parameters t = 1/2 and s = 1/2. -/
theorem c8_crossing_returns_midpoint :
    intersect crossSeg1 crossSeg2 defaultPrecision = Except.ok ⟨1, 1, 0⟩ ∧
    tVal crossSeg1 crossSeg2 = 1/2 ∧ sVal crossSeg1 crossSeg2 = 1/2 := by
  have hs : sVal crossSeg1 crossSeg2 = 1/2 := by
    norm_num [sVal, denom, dirX, dirY, offX, offY, crossSeg1, crossSeg2]
  have ht : tVal crossSeg1 crossSeg2 = 1/2 := by
    rw [tVal, hs]; norm_num [dirX, offX, crossSeg1, crossSeg2]
  refine ⟨?_, ht, hs⟩
  have hc : checksHold crossSeg1 crossSeg2 defaultPrecision := by
    simp only [checksHold, checkX, checkY, checkZ, axisOK, hs, ht]
    norm_num [dirX, dirY, dirZ, offX, offY, offZ, crossSeg1, crossSeg2, defaultPrecision]
  rw [intersect, if_pos hc, candidate, hs]
  norm_num [dirX, dirY, dirZ, offX, offY, offZ, crossSeg1, crossSeg2]

/-- C9: the division by a1 in the computation of t is unguarded and
reachable with a1 = 0: whenever a valid pair has a1 = 0 and a nonzero
denominator, the numerator a2 * s + b2 - b1 of t is exactly 0 as well, so
t is 0/0 and no equation determines it; the witness exhibits such a pair,
so a total embedding of the solve is well defined only under the extra
precondition a1 different from 0. -/
theorem c9_division_by_zero_reachable (s1 s2 : Segment3D)
    (_h1 : s1.Valid) (_h2 : s2.Valid)
    (ha : dirX s1 = 0) (hd : denom s1 s2 ≠ 0) :
    dirX s2 * sVal s1 s2 + offX s2 - offX s1 = 0 := by
  have hden : denom s1 s2 = dirY s1 * dirX s2 := by rw [denom, ha]; ring
  have hy1 : dirY s1 ≠ 0 := by
    intro h; apply hd; rw [hden, h, zero_mul]
  have hx2 : dirX s2 ≠ 0 := by
    intro h; apply hd; rw [hden, h, mul_zero]
  rw [sVal, hden, ha]
  field_simp
  ring

/-- Witness for C9: the valid pair (0,0,0)-(0,1,0) and (1,0,0)-(2,1,0)
has a1 = 0 with denominator 1, and the numerator of t vanishes. -/
theorem c9_division_by_zero_witness :
    dirX verticalSeg1 = 0 ∧ denom verticalSeg1 slantSeg2 = 1 ∧
    dirX slantSeg2 * sVal verticalSeg1 slantSeg2 + offX slantSeg2 - offX verticalSeg1 = 0 :=
  ⟨by norm_num [dirX, verticalSeg1],
   by norm_num [denom, dirX, dirY, verticalSeg1, slantSeg2],
   c9_division_by_zero_reachable verticalSeg1 slantSeg2
     (by norm_num [Segment3D.Valid, Vector3D.eq, verticalSeg1])
     (by norm_num [Segment3D.Valid, Vector3D.eq, slantSeg2])
     (by norm_num [dirX, verticalSeg1])
     (by norm_num [denom, dirX, dirY, verticalSeg1, slantSeg2])⟩

/-- C10, counterexample: a negative precision does not always make
intersect raise. On the valid parallel pair, at precision -1, every
comparison is between the negative infinity and itself, which absorbs the
precision offsets whatever their sign, so the call returns the point
(-inf, -inf, -inf) instead of raising. All quantities involved are exact
in doubles, so the C++ program behaves identically. -/
theorem c10_negative_precision_counterexample :
    parallelSeg1.Valid ∧ parallelSeg2.Valid ∧
    intersectE parallelSeg1 parallelSeg2 (-1) =
      Except.ok ⟨DExt.ninf, DExt.ninf, DExt.ninf⟩ :=
  ⟨by norm_num [Segment3D.Valid, Vector3D.eq, parallelSeg1],
   by norm_num [Segment3D.Valid, Vector3D.eq, parallelSeg2],
   by rw [intersectE, if_pos parallel_checksE_neg, parallel_xVal2, parallel_yVal2,
        parallel_zVal2]⟩

/-- C10, as amended: the precision argument is never validated, and for
every pair of valid segments whose 2x2 denominator is nonzero, every
negative precision makes intersect raise the no-intersection error. In
the IEEE model: s is finite, so either a1 = 0 and the X value of
segment1 is NaN, failing the X comparison, or everything on the X axis is
finite and the X comparisons demand lhs - precision at most rhs at most
lhs + precision, impossible for a negative precision. (With a zero
denominator the infinite-value escape of C6 applies instead and the call
can return a non-finite point, for any precision.) -/
theorem c10_negative_precision_nonparallel (s1 s2 : Segment3D) (p : ℚ)
    (_h1 : s1.Valid) (_h2 : s2.Valid)
    (hd : denom s1 s2 ≠ 0) (hp : p < 0) :
    intersectE s1 s2 p = Except.error noIntersectionMsg := by
  obtain ⟨q, hq⟩ : ∃ q, sE s1 s2 = DExt.fin q := by
    rw [sE, divQ, if_neg hd]
    exact ⟨_, rfl⟩
  obtain ⟨r, hr⟩ : ∃ r, tE s1 s2 = divQ r (dirX s1) := by
    rw [tE, hq]
    exact ⟨dirX s2 * q + offX s2 - offX s1, rfl⟩
  suffices hX : axisOKE (xVal1 s1 s2) (xVal2 s1 s2) p = false by
    have hc : checksE s1 s2 p = false := by simp [checksE, hX]
    simp [intersectE, hc]
  by_cases ha : dirX s1 = 0
  · have htE : tE s1 s2 = DExt.nan ∨ tE s1 s2 = DExt.pinf ∨ tE s1 s2 = DExt.ninf := by
      rw [hr, ha, divQ, if_pos rfl]
      split_ifs <;> simp
    have hx1 : xVal1 s1 s2 = DExt.nan := by
      rcases htE with h | h | h <;> rw [xVal1, h, ha]
      · rw [mulF_nan]; rfl
      · rw [mulF_pinf, if_neg (lt_irrefl 0), if_neg (lt_irrefl 0)]; rfl
      · rw [mulF_ninf, if_neg (lt_irrefl 0), if_neg (lt_irrefl 0)]; rfl
    rw [axisOKE, hx1]
    simp only [DExt.subF]
    rw [DExt.le_nan_left, Bool.false_and]
  · have htfin : tE s1 s2 = DExt.fin (r / dirX s1) := by
      rw [hr, divQ, if_neg ha]
    have hx1 : xVal1 s1 s2 = DExt.fin (dirX s1 * (r / dirX s1) + offX s1) := by
      rw [xVal1, htfin]; rfl
    have hx2 : xVal2 s1 s2 = DExt.fin (dirX s2 * q + offX s2) := by
      rw [xVal2, hq]; rfl
    rw [axisOKE, hx1, hx2]
    simp only [DExt.subF, DExt.addF, DExt.le]
    rw [← Bool.not_eq_true]
    intro hT
    rw [Bool.and_eq_true, decide_eq_true_eq, decide_eq_true_eq] at hT
    obtain ⟨hl, hr2⟩ := hT
    linarith

/-- Witness for the amended C10 at the crossing pair, whose denominator is
8, with precision -1. -/
theorem c10_negative_precision_nonparallel_witness :
    intersectE crossSeg1 crossSeg2 (-1) = Except.error noIntersectionMsg :=
  c10_negative_precision_nonparallel crossSeg1 crossSeg2 (-1)
    (by norm_num [Segment3D.Valid, Vector3D.eq, crossSeg1])
    (by norm_num [Segment3D.Valid, Vector3D.eq, crossSeg2])
    (by norm_num [denom, dirX, dirY, crossSeg1, crossSeg2])
    (by norm_num)

end LedasSegments
